import Mathlib

/-!
Verification of the follow-graph / personalized-feed slice of the Talos
social-blogging application (Flask), as described in its design spec.

The request handlers are embedded from `src/app/main/views.py` and
`src/app/auth/views.py`.  The ORM model layer (`app/models.py`) is not part
of the source tree; the store operations it provides (`follow`,
`unfollow`, `is_following`, `followed_posts`) and the library pagination
(`paginate(..., error_out=False)`) are modelled from the spec, each marked
`Modelled from the spec:` in its doc comment.
-/

/-- A user row: id and unique username (the profile fields play no role in
the follow/feed slice). -/
structure User where
  id : Nat
  username : String
deriving DecidableEq, Repr

/-- A post row: id, owning author id, and server-assigned creation
timestamp (modelled as a `Nat`). -/
structure Post where
  id : Nat
  authorId : Nat
  timestamp : Nat
  body : String
deriving DecidableEq, Repr

/-- A directed follow edge `(follower_id, followed_id, timestamp)`. -/
structure FollowEdge where
  followerId : Nat
  followedId : Nat
  timestamp : Nat
deriving DecidableEq, Repr

/-- The database state: users, posts in insertion order, and the follow
edge table. -/
structure Store where
  users : List User
  posts : List Post
  follows : List FollowEdge
deriving DecidableEq, Repr

/-- `User.query.filter_by(username=username).first()`: the first user row
with the given username, if any. -/
def lookupUser (s : Store) (username : String) : Option User :=
  s.users.find? (fun u => u.username == username)

/-- `Post.query.get(id)`: the post with the given id, if any. -/
def lookupPost (s : Store) (id : Nat) : Option Post :=
  s.posts.find? (fun p => p.id == id)

/-- Modelled from the spec: `is_following(follower, target)` of the missing
model layer — a boolean existence check on the edge table. -/
def is_following (s : Store) (followerId targetId : Nat) : Bool :=
  s.follows.any (fun e => e.followerId == followerId && e.followedId == targetId)

/-- Number of edges from `followerId` to `targetId` in the store. -/
def edgeCount (s : Store) (followerId targetId : Nat) : Nat :=
  (s.follows.filter (fun e => e.followerId == followerId && e.followedId == targetId)).length

/-- The error vocabulary of the follow-relationship manager (spec section 4.1). -/
inductive FollowError where
  | invalidTarget
deriving DecidableEq, Repr

/-- Modelled from the spec: `follow(follower, target)` of the missing model
layer — fails with `InvalidTarget` if `follower == target`; otherwise
creates the edge if absent (creating an existing edge is a silent no-op). -/
def follow_op (s : Store) (followerId targetId ts : Nat) : Except FollowError Store :=
  if followerId == targetId then
    .error .invalidTarget
  else if is_following s followerId targetId then
    .ok s
  else
    .ok { s with follows := s.follows ++ [⟨followerId, targetId, ts⟩] }

/-- Modelled from the spec: `unfollow(follower, target)` of the missing
model layer — removes the edge if present; no-op if absent. -/
def unfollow_op (s : Store) (followerId targetId : Nat) : Store :=
  { s with follows :=
      s.follows.filter (fun e => !(e.followerId == followerId && e.followedId == targetId)) }

/-- Modelled from the spec: `current_user.followed_posts` of the missing
model layer — every post whose author is followed by the viewer. -/
def followed_posts (s : Store) (viewerId : Nat) : List Post :=
  s.posts.filter (fun p => is_following s viewerId p.authorId)

/-- Insert a post into a list already sorted by timestamp descending,
placing it before the first element whose timestamp it reaches (so an
element inserted later never jumps ahead of an equal-timestamp element
inserted earlier). -/
def insertDesc (p : Post) : List Post → List Post
  | [] => [p]
  | q :: qs => if q.timestamp ≤ p.timestamp then p :: q :: qs else q :: insertDesc p qs

/-- Modelled from the spec: `order_by(Post.timestamp.desc())` — candidates
sorted by creation timestamp descending, ties broken by insertion order
(stable sort). -/
def sortByTimestampDesc : List Post → List Post
  | [] => []
  | p :: ps => insertDesc p (sortByTimestampDesc ps)

/-- A pagination object: the page slice plus the metadata the templates
consume. -/
structure Pagination where
  items : List Post
  page : Nat
  perPage : Nat
  total : Nat
deriving DecidableEq, Repr

/-- Modelled from the spec: `paginate(page, per_page, error_out=False)` —
1-indexed page slicing that returns an empty slice instead of raising when
the page is out of range. -/
def paginate (l : List Post) (page perPage : Nat) : Pagination :=
  { items := (l.drop ((page - 1) * perPage)).take perPage
    page := page
    perPage := perPage
    total := l.length }

/-- Flash message category (`'warning'`, `'info'`, `'success'`;
`'message'` is Flask's default when none is given). -/
abbrev Flash := String × String

/-- The observable outcome of a main-blueprint handler: a 404, a redirect
(endpoint plus optional flash), or a rendered listing page. -/
inductive Resp where
  | notFound : Resp
  | redirect (endpoint : String) (flash : Option Flash) : Resp
  | page (items : List Post) : Resp
  | followsPage (follows : List (Nat × Nat)) : Resp
deriving DecidableEq, Repr

/-- `bool(request.cookies.get('show_followed', ''))` — a missing or empty
cookie is falsy, any non-empty cookie value is truthy. -/
def cookieTruthy (cookie : Option String) : Bool :=
  (cookie.getD "") != ""

/-- The two feed selection modes of the spec. -/
inductive Mode where
  | all
  | followed
deriving DecidableEq, Repr

/-- Cookie value written by the mode-toggle routes: `show_all`
(views.py lines 204-209) sets `show_followed` to `''`, `show_followed`
(lines 212-217) sets it to `'1'`. -/
def setModeCookie : Mode → String
  | .all => ""
  | .followed => "1"

/-- Selection mode as read by the home handler (views.py lines 36-38):
`show_followed` is `False` unless the viewer is authenticated and the
`show_followed` cookie is truthy. -/
def readMode (authenticated : Bool) (cookie : Option String) : Mode :=
  if authenticated && cookieTruthy cookie then .followed else .all

/-- The `query` variable computed by the home handler (views.py lines
39-42): `current_user.followed_posts` in followed mode, `Post.query`
otherwise.  The handler computes it but does not paginate it. -/
def homeQuery (s : Store) (viewerId : Option Nat) (cookie : Option String) : List Post :=
  match viewerId with
  | some vid =>
      if readMode true cookie = .followed then followed_posts s vid else s.posts
  | none => s.posts

/-- The feed slice the home handler actually returns (views.py lines
43-46): `Post.query.order_by(Post.timestamp.desc()).paginate(...)` — it
paginates the full post table, not the `query` variable. -/
def homeFeedItems (s : Store) (page perPage : Nat) : List Post :=
  (paginate (sortByTimestampDesc s.posts) page perPage).items

/-- The `/user/<username>` handler (views.py lines 51-60):
`first_or_404`, then that user's posts newest-first, paginated. -/
def userView (s : Store) (username : String) (page perPage : Nat) : Resp :=
  match lookupUser s username with
  | none => .notFound
  | some u =>
      .page (paginate (sortByTimestampDesc (s.posts.filter (fun p => p.authorId == u.id)))
              page perPage).items

/-- The `/post/<id>` handler (views.py lines 110-113): `get_or_404`. -/
def postView (s : Store) (id : Nat) : Resp :=
  match lookupPost s id with
  | none => .notFound
  | some p => .page [p]

/-- The `/follow/<username>` handler (views.py lines 134-148), for an
authenticated viewer with FOLLOW permission: unknown username flashes
`Invalid user.` and redirects home; an existing relationship flashes an
informational message and redirects without touching the store; otherwise
`current_user.follow(user)` runs and is committed. -/
def followView (s : Store) (currentUserId : Nat) (username : String) (ts : Nat) :
    Except FollowError (Store × Resp) :=
  match lookupUser s username with
  | none => .ok (s, .redirect ".home" (some ("Invalid user.", "warning")))
  | some u =>
      if is_following s currentUserId u.id then
        .ok (s, .redirect ".user" (some ("You are already following this user.", "info")))
      else
        match follow_op s currentUserId u.id ts with
        | .error e => .error e
        | .ok s' =>
            .ok (s', .redirect ".user" (some ("You are now following " ++ username, "success")))

/-- The `/unfollow/<username>` handler (views.py lines 151-165), for an
authenticated viewer with FOLLOW permission. -/
def unfollowView (s : Store) (currentUserId : Nat) (username : String) : Store × Resp :=
  match lookupUser s username with
  | none => (s, .redirect ".home" (some ("Invalid user.", "warning")))
  | some u =>
      if !(is_following s currentUserId u.id) then
        (s, .redirect ".user" (some ("You are not following this user.", "info")))
      else
        (unfollow_op s currentUserId u.id,
          .redirect ".user" (some ("You are not following " ++ username ++ " anymore", "success")))

/-- The `/followers/<username>` handler (views.py lines 168-183): unknown
username flashes `Invalid user.` (default category) and redirects home;
otherwise the paginated follower list as (follower id, edge timestamp)
pairs. -/
def followersView (s : Store) (username : String) (page perPage : Nat) : Resp :=
  match lookupUser s username with
  | none => .redirect ".home" (some ("Invalid user.", "message"))
  | some u =>
      .followsPage
        (((paginate' (s.follows.filter (fun e => e.followedId == u.id)) page perPage).map
          (fun e => (e.followerId, e.timestamp))))
where
  /-- Raw page slice over an arbitrary list, same `error_out=False`
  semantics as `paginate`. -/
  paginate' (l : List FollowEdge) (page perPage : Nat) : List FollowEdge :=
    (l.drop ((page - 1) * perPage)).take perPage

/-- The `/followed-by/<username>` handler (views.py lines 186-201),
symmetric to `followersView` over the other edge direction. -/
def followedByView (s : Store) (username : String) (page perPage : Nat) : Resp :=
  match lookupUser s username with
  | none => .redirect ".home" (some ("Invalid user.", "message"))
  | some u =>
      .followsPage
        ((((s.follows.filter (fun e => e.followerId == u.id)).drop
            ((page - 1) * perPage)).take perPage).map
          (fun e => (e.followedId, e.timestamp)))

/-- `url_for` for the two endpoints the login handlers fall back to, read
off the route decorators in `src/app/main/views.py`: `main.index` is `/`,
`main.home` is `/home`. -/
def urlFor : String → String
  | "main.home" => "/home"
  | _ => "/"

/-- Python `s.startswith('/')`: the string's first character is `/`. -/
def startsWithSlash (s : String) : Bool :=
  match s.data with
  | [] => false
  | c :: _ => c == '/'

/-- The post-login redirect target of `auth.login` (auth/views.py lines
17-20): the `next` request argument if it is present and starts with `/`,
else `url_for('main.index')`. -/
def loginRedirectTarget (next : Option String) : String :=
  match next with
  | none => urlFor "main.index"
  | some s => if startsWithSlash s then s else urlFor "main.index"

/-- The post-login redirect target of `main.index` (main/views.py lines
18-21), identical logic with `url_for('main.home')` as the fallback. -/
def indexRedirectTarget (next : Option String) : String :=
  match next with
  | none => urlFor "main.home"
  | some s => if startsWithSlash s then s else urlFor "main.home"

/-- The module-level names bound in `src/app/auth/views.py`: the names
imported on lines 1-7 and the view functions the module itself defines.
`current_user` is not among them. -/
def authViewsGlobals : List String :=
  ["render_template", "redirect", "request", "url_for", "flash",
   "login_user", "logout_user", "login_required",
   "auth", "db", "User", "send_email",
   "LoginForm", "RegistrationForm",
   "login", "logout", "register", "confirm", "resend_confirmation"]

/-- Python name resolution inside a handler body of `auth/views.py`: a
name evaluates successfully iff it is bound locally or at module level
(neither `current_user` nor `user` is a builtin). -/
def resolvesIn (locals : List String) (n : String) : Bool :=
  locals.contains n || authViewsGlobals.contains n

/-- Outcome of an auth handler: a redirect (with optional flash), or an
uncaught `NameError` naming the unresolvable identifier. -/
inductive PyRes where
  | redirect (endpoint : String) (flash : Option Flash) : PyRes
  | nameError (n : String) : PyRes
deriving DecidableEq, Repr

/-- The `/confirm/<token>` handler (auth/views.py lines 47-57) for a
logged-in viewer: line 50 evaluates the name `current_user` before
anything else; a name that resolves neither locally nor at module level
raises `NameError`. -/
def confirmView (confirmed tokenValid : Bool) : PyRes :=
  if resolvesIn ["token"] "current_user" then
    if confirmed then
      .redirect "main.index" none
    else if resolvesIn ["token"] "current_user" then
      if tokenValid then
        .redirect "main.index" (some ("You have confirmed your account. Thanks!", "success"))
      else
        .redirect "main.index" (some ("The confirmation link is invalid or has expired.", "warning"))
    else
      .nameError "current_user"
  else
    .nameError "current_user"

/-- The `/confirm` resend handler (auth/views.py lines 60-67) for a
logged-in viewer: line 63 evaluates `current_user`; line 65 additionally
evaluates the name `user`, which is bound nowhere in that scope either. -/
def resendConfirmationView : PyRes :=
  if resolvesIn [] "current_user" then
    if resolvesIn ["token"] "user" then
      .redirect "main.index"
        (some ("A new confirmation email has been sent to you by email.", "info"))
    else
      .nameError "user"
  else
    .nameError "current_user"

/-- A list of posts ordered newest-first: every later element has a
timestamp no greater than every earlier one. -/
def TimeDescending (l : List Post) : Prop :=
  l.Pairwise (fun a b => b.timestamp ≤ a.timestamp)

/-- Scenario from the spec's test section: users Alice (id 1), Bob (2),
Carol (3). -/
def alice : User := ⟨1, "alice"⟩

/-- Bob, followed by Alice in the scenario. -/
def bob : User := ⟨2, "bob"⟩

/-- Carol, not followed by Alice in the scenario. -/
def carol : User := ⟨3, "carol"⟩

/-- Bob's post in the scenario (timestamp 10). -/
def bobPost : Post := ⟨1, 2, 10, "from bob"⟩

/-- Carol's post in the scenario (timestamp 20). -/
def carolPost : Post := ⟨2, 3, 20, "from carol"⟩

/-- The scenario store: Alice follows Bob; one post each by Bob and
Carol. -/
def scenarioStore : Store :=
  ⟨[alice, bob, carol], [bobPost, carolPost], [⟨1, 2, 5⟩]⟩

/-- A store with no users, posts or edges. -/
def emptyStore : Store := ⟨[], [], []⟩

/-- A pair is absent from the edge table exactly when its edge count is
zero. -/
theorem is_following_false_iff (s : Store) (a b : Nat) :
    is_following s a b = false ↔ edgeCount s a b = 0 := by
  simp [is_following, edgeCount, List.length_eq_zero, List.filter_eq_nil_iff,
    List.any_eq_true]

/-- Appending a matching edge raises the pair's edge count by one. -/
theorem edgeCount_append_matching (s : Store) (a b ts : Nat) :
    edgeCount { s with follows := s.follows ++ [⟨a, b, ts⟩] } a b
      = edgeCount s a b + 1 := by
  simp [edgeCount, List.filter_append]

/-- After appending a matching edge, the membership check succeeds. -/
theorem is_following_append (s : Store) (a b ts : Nat) :
    is_following { s with follows := s.follows ++ [⟨a, b, ts⟩] } a b = true := by
  simp [is_following]

/-- Membership in an `insertDesc` result. -/
theorem mem_insertDesc {p q : Post} {l : List Post} :
    q ∈ insertDesc p l ↔ q = p ∨ q ∈ l := by
  induction l with
  | nil => simp [insertDesc]
  | cons r rs ih =>
      simp only [insertDesc]
      split
      · simp
      · simp [ih]
        tauto

/-- Sorting preserves membership. -/
theorem mem_sortByTimestampDesc {q : Post} {l : List Post} :
    q ∈ sortByTimestampDesc l ↔ q ∈ l := by
  induction l with
  | nil => simp [sortByTimestampDesc]
  | cons p ps ih => simp [sortByTimestampDesc, mem_insertDesc, ih]

/-- `insertDesc` grows the list by exactly one element. -/
theorem length_insertDesc (p : Post) (l : List Post) :
    (insertDesc p l).length = l.length + 1 := by
  induction l with
  | nil => rfl
  | cons r rs ih =>
      simp only [insertDesc]
      split
      · simp
      · simp [ih]

/-- Sorting preserves length. -/
theorem length_sortByTimestampDesc (l : List Post) :
    (sortByTimestampDesc l).length = l.length := by
  induction l with
  | nil => rfl
  | cons p ps ih => simp [sortByTimestampDesc, length_insertDesc, ih]

/-- Inserting into a newest-first list keeps it newest-first. -/
theorem timeDescending_insertDesc {p : Post} {l : List Post}
    (h : TimeDescending l) : TimeDescending (insertDesc p l) := by
  induction l with
  | nil => simp [TimeDescending, insertDesc]
  | cons r rs ih =>
      simp only [insertDesc]
      split
      · rename_i hle
        refine List.Pairwise.cons ?_ h
        intro b hb
        rcases List.mem_cons.mp hb with rfl | hb'
        · exact hle
        · have := List.rel_of_pairwise_cons h hb'
          omega
      · rename_i hgt
        have hlt : p.timestamp < r.timestamp := by omega
        refine List.Pairwise.cons ?_ (ih (List.Pairwise.of_cons h))
        intro b hb
        rcases mem_insertDesc.mp hb with rfl | hb'
        · omega
        · exact List.rel_of_pairwise_cons h hb'

/-- The sorted candidate list is newest-first. -/
theorem timeDescending_sort (l : List Post) :
    TimeDescending (sortByTimestampDesc l) := by
  induction l with
  | nil => exact List.Pairwise.nil
  | cons p ps ih => exact timeDescending_insertDesc ih

/-- A list is a sublist of any of its `insertDesc` extensions. -/
theorem sublist_insertDesc (p : Post) (l : List Post) :
    l.Sublist (insertDesc p l) := by
  induction l with
  | nil => simp [insertDesc]
  | cons r rs ih =>
      simp only [insertDesc]
      split
      · exact List.sublist_cons_self p (r :: rs)
      · exact List.Sublist.cons₂ r ih

/-- Any sublist survives an `insertDesc`. -/
theorem sublist_of_sublist_insertDesc {m l : List Post} (p : Post)
    (h : m.Sublist l) : m.Sublist (insertDesc p l) :=
  h.trans (sublist_insertDesc p l)

/-- Two distinct members of a list occur in one of the two orders. -/
theorem pair_sublist_of_mem {a b : Post} {l : List Post}
    (ha : a ∈ l) (hb : b ∈ l) (hne : a ≠ b) :
    [a, b].Sublist l ∨ [b, a].Sublist l := by
  induction l with
  | nil => cases ha
  | cons c cs ih =>
      rcases List.mem_cons.mp ha with rfl | ha'
      · have hb' : b ∈ cs := by
          rcases List.mem_cons.mp hb with h | h
          · exact absurd h.symm hne
          · exact h
        exact Or.inl (List.Sublist.cons₂ a (List.singleton_sublist.mpr hb'))
      · rcases List.mem_cons.mp hb with rfl | hb'
        · exact Or.inr (List.Sublist.cons₂ b (List.singleton_sublist.mpr ha'))
        · rcases ih ha' hb' with h | h
          · exact Or.inl (h.cons c)
          · exact Or.inr (h.cons c)

/-- Inserting `p` places it before every member whose timestamp does not
exceed `p`'s (in particular before every tie). -/
theorem insertDesc_pair_ties {p y : Post} {l : List Post}
    (hy : y ∈ l) (hle : y.timestamp ≤ p.timestamp) :
    [p, y].Sublist (insertDesc p l) := by
  induction l with
  | nil => cases hy
  | cons q qs ih =>
      simp only [insertDesc]
      split
      · exact List.Sublist.cons₂ p (List.singleton_sublist.mpr hy)
      · rename_i hq
        rcases List.mem_cons.mp hy with rfl | hy'
        · omega
        · exact (ih hy').cons q

/-- Stability of the sort: a tied pair keeps its relative order. -/
theorem sort_stable {x y : Post} {l : List Post}
    (h : [x, y].Sublist l) (hts : x.timestamp = y.timestamp) :
    [x, y].Sublist (sortByTimestampDesc l) := by
  induction l with
  | nil => cases h
  | cons p ps ih =>
      cases h with
      | cons _ h' =>
          exact sublist_of_sublist_insertDesc p (ih h')
      | cons₂ _ h' =>
          have hy : y ∈ sortByTimestampDesc ps :=
            mem_sortByTimestampDesc.mpr (List.singleton_sublist.mp h')
          exact insertDesc_pair_ties hy (le_of_eq hts.symm)

/-- `error_out=False` semantics: any page strictly beyond the last page
(that is, beyond page ⌈total/perPage⌉) yields an empty slice rather than
an error. -/
theorem paginate_beyond_last (l : List Post) (page perPage : Nat)
    (hpp : 0 < perPage)
    (hp : (l.length + perPage - 1) / perPage < page) :
    (paginate l page perPage).items = [] := by
  have hpage : 0 < page := Nat.lt_of_le_of_lt (Nat.zero_le _) hp
  have h1 : l.length + perPage - 1 < page * perPage :=
    (Nat.div_lt_iff_lt_mul hpp).mp hp
  obtain ⟨k, rfl⟩ : ∃ k, page = k + 1 :=
    ⟨page - 1, (Nat.succ_pred_eq_of_pos hpage).symm⟩
  rw [Nat.add_mul, Nat.one_mul] at h1
  have h2 : l.length ≤ (k + 1 - 1) * perPage := by
    simp only [Nat.add_sub_cancel]
    generalize k * perPage = m at h1 ⊢
    omega
  simp only [paginate]
  rw [List.drop_eq_nil_of_le h2, List.take_nil]

/-- Claim C1: for an authenticated viewer in "followed" mode, the home
feed should contain exactly the followed authors' posts.  The code
violates this: the handler computes the followed-only `query` variable but
paginates `Post.query` (the full post table).  Concretely, Alice follows
only Bob, yet Carol's post is in the feed the handler returns to Alice in
followed mode, while the computed-but-unused `query` is `[bobPost]`. -/
theorem c1_home_ignores_followed_query :
    readMode true (some "1") = .followed
    ∧ is_following scenarioStore alice.id carol.id = false
    ∧ carolPost ∈ homeFeedItems scenarioStore 1 20
    ∧ homeQuery scenarioStore (some alice.id) (some "1") = [bobPost]
    ∧ carolPost ∉ homeQuery scenarioStore (some alice.id) (some "1") := by
  decide

/-- Claim C2: a follow request by a user targeting itself fails with
`InvalidTarget` and creates no edge: at the handler level (given that no
self-edge is already stored, which the manager never creates), and
unconditionally at the follow-operation level. -/
theorem c2_self_follow_invalid_target (s : Store) (a : User) (ts : Nat)
    (hu : lookupUser s a.username = some a)
    (hself : is_following s a.id a.id = false) :
    followView s a.id a.username ts = .error .invalidTarget
    ∧ ∀ (s2 : Store) (b ts2 : Nat), follow_op s2 b b ts2 = .error .invalidTarget := by
  constructor
  · simp [followView, hu, hself, follow_op]
  · intro s2 b ts2
    simp [follow_op]

/-- Witness for C2: Alice trying to follow herself in the scenario store. -/
theorem c2_self_follow_invalid_target_witness :
    followView scenarioStore alice.id alice.username 99 = .error .invalidTarget :=
  (c2_self_follow_invalid_target scenarioStore alice 99 (by decide) (by decide)).1

/-- Claim C4: unfollowing a user one does not follow leaves the whole
store unchanged and completes with an informational redirect, not an
error. -/
theorem c4_unfollow_absent_noop (s : Store) (a : Nat) (b : User) (uname : String)
    (hu : lookupUser s uname = some b)
    (hnf : is_following s a b.id = false) :
    unfollowView s a uname =
      (s, .redirect ".user" (some ("You are not following this user.", "info"))) := by
  simp [unfollowView, hu, hnf]

/-- Witness for C4: Bob unfollowing Carol, whom he does not follow. -/
theorem c4_unfollow_absent_noop_witness :
    unfollowView scenarioStore bob.id "carol" =
      (scenarioStore, .redirect ".user" (some ("You are not following this user.", "info"))) :=
  c4_unfollow_absent_noop scenarioStore bob.id carol "carol" (by decide) (by decide)

/-- Claim C5: any page strictly beyond the last available page
(⌈N/P⌉ + 1 and beyond) of a paginated listing is an empty slice, and in
particular the home feed's slice is empty there; the pagination functions
are total, so no error is raised. -/
theorem c5_page_beyond_last_empty (s : Store) (l : List Post) (page perPage : Nat)
    (hpp : 0 < perPage)
    (hl : (l.length + perPage - 1) / perPage < page)
    (hs : (s.posts.length + perPage - 1) / perPage < page) :
    (paginate l page perPage).items = [] ∧ homeFeedItems s page perPage = [] := by
  refine ⟨paginate_beyond_last l page perPage hpp hl, ?_⟩
  have hlen : (sortByTimestampDesc s.posts).length = s.posts.length :=
    length_sortByTimestampDesc s.posts
  exact paginate_beyond_last _ page perPage hpp (by rw [hlen]; exact hs)

/-- Witness for C5: two posts with page size 2 have one page; page 2 is
empty. -/
theorem c5_page_beyond_last_empty_witness :
    (paginate scenarioStore.posts 2 2).items = []
    ∧ homeFeedItems scenarioStore 2 2 = [] :=
  c5_page_beyond_last_empty scenarioStore scenarioStore.posts 2 2
    (by decide) (by decide) (by decide)

/-- Claim C7: the mode-toggle round-trip.  Reading back the cookie the
`show_followed` route sets yields followed mode, reading back the cookie
the `show_all` route sets yields all mode; an absent or empty cookie reads
as all and any non-empty cookie reads as followed. -/
theorem c7_mode_round_trip (c : String) (hc : c ≠ "") :
    readMode true (some (setModeCookie .followed)) = .followed
    ∧ readMode true (some (setModeCookie .all)) = .all
    ∧ readMode true none = .all
    ∧ readMode true (some "") = .all
    ∧ readMode true (some c) = .followed := by
  refine ⟨by decide, by decide, by decide, by decide, ?_⟩
  simp [readMode, cookieTruthy, hc]

/-- Witness for C7: the non-empty cookie value `"x"` reads as followed. -/
theorem c7_mode_round_trip_witness :
    readMode true (some "x") = Mode.followed :=
  (c7_mode_round_trip "x" (by decide)).2.2.2.2

/-- Claim C9: both account-confirmation handlers raise `NameError` for
every logged-in request — `current_user` is bound neither locally nor at
module level in `auth/views.py`, and the name `user` referenced by the
resend handler is not bound either — so neither route can succeed. -/
theorem c9_confirm_routes_name_error (confirmed tokenValid : Bool) :
    confirmView confirmed tokenValid = .nameError "current_user"
    ∧ resendConfirmationView = .nameError "current_user"
    ∧ authViewsGlobals.contains "current_user" = false
    ∧ authViewsGlobals.contains "user" = false := by
  refine ⟨?_, by decide, by decide, by decide⟩
  cases confirmed <;> cases tokenValid <;> decide

/-- Claim C3: following the same (distinct) user twice leaves exactly one
edge for the pair; the second request is a silent no-op answered with an
informational flash, not an error. -/
theorem c3_follow_idempotent (s : Store) (a : Nat) (b : User) (uname : String)
    (ts1 ts2 : Nat)
    (hu : lookupUser s uname = some b)
    (hne : a ≠ b.id)
    (hcount : edgeCount s a b.id ≤ 1) :
    ∃ s1 r1, followView s a uname ts1 = .ok (s1, r1)
      ∧ edgeCount s1 a b.id = 1
      ∧ followView s1 a uname ts2 =
          .ok (s1, .redirect ".user"
                (some ("You are already following this user.", "info"))) := by
  by_cases hf : is_following s a b.id = true
  · refine ⟨s, .redirect ".user" (some ("You are already following this user.", "info")),
      ?_, ?_, ?_⟩
    · simp [followView, hu, hf]
    · have h0 : edgeCount s a b.id ≠ 0 := fun h => by
        simp [(is_following_false_iff s a b.id).mpr h] at hf
      omega
    · simp [followView, hu, hf]
  · have hf' : is_following s a b.id = false := by
      cases hq : is_following s a b.id
      · rfl
      · exact absurd hq hf
    have hc0 : edgeCount s a b.id = 0 := (is_following_false_iff s a b.id).mp hf'
    refine ⟨{ s with follows := s.follows ++ [⟨a, b.id, ts1⟩] },
      .redirect ".user" (some ("You are now following " ++ uname, "success")),
      ?_, ?_, ?_⟩
    · simp [followView, hu, hf', follow_op, hne]
    · rw [edgeCount_append_matching, hc0]
    · have hu1 : lookupUser { s with follows := s.follows ++ [⟨a, b.id, ts1⟩] } uname
          = some b := hu
      have hf1 := is_following_append s a b.id ts1
      simp [followView, hu1, hf1]

/-- Witness for C3: Bob follows Carol twice starting from the scenario
store; exactly one edge results and the second call is an informational
no-op. -/
theorem c3_follow_idempotent_witness :
    ∃ s1 r1, followView scenarioStore bob.id "carol" 7 = .ok (s1, r1)
      ∧ edgeCount s1 bob.id carol.id = 1
      ∧ followView s1 bob.id "carol" 8 =
          .ok (s1, .redirect ".user"
                (some ("You are already following this user.", "info"))) :=
  c3_follow_idempotent scenarioStore bob.id carol "carol" 7 8
    (by decide) (by decide) (by decide)

/-- Claim C6: in the "all"-mode candidate order, a post created strictly
earlier appears after a post created strictly later (newest first), and a
tied pair keeps its insertion order, so the sorted order is a function of
the store alone and pagination over it is deterministic. -/
theorem c6_feed_ordering (s : Store) (X Y : Post)
    (hX : X ∈ s.posts) (hY : Y ∈ s.posts)
    (hlt : X.timestamp < Y.timestamp) :
    [Y, X].Sublist (sortByTimestampDesc s.posts)
    ∧ ∀ P Q : Post, [P, Q].Sublist s.posts → P.timestamp = Q.timestamp →
        [P, Q].Sublist (sortByTimestampDesc s.posts) := by
  constructor
  · have hX' : X ∈ sortByTimestampDesc s.posts := mem_sortByTimestampDesc.mpr hX
    have hY' : Y ∈ sortByTimestampDesc s.posts := mem_sortByTimestampDesc.mpr hY
    have hne : Y ≠ X := by
      intro h
      rw [h] at hlt
      omega
    rcases pair_sublist_of_mem hY' hX' hne with h | h
    · exact h
    · exfalso
      have hp := (timeDescending_sort s.posts).sublist h
      have := List.rel_of_pairwise_cons hp (List.mem_singleton.mpr rfl)
      omega
  · intro P Q hPQ hts
    exact sort_stable hPQ hts

/-- Witness for C6: Bob's post (timestamp 10) is placed after Carol's
(timestamp 20) in the scenario store's candidate order. -/
theorem c6_feed_ordering_witness :
    [carolPost, bobPost].Sublist (sortByTimestampDesc scenarioStore.posts) :=
  (c6_feed_ordering scenarioStore bobPost carolPost
    (by decide) (by decide) (by decide)).1

/-- Counterexample to claim C8 as stated: for the unknown username
`ghost`, the follow handler does not surface a not-found response — it
flashes `Invalid user.` and redirects home. -/
theorem c8_follow_unknown_not_404 :
    followView emptyStore 1 "ghost" 0 =
      .ok (emptyStore, .redirect ".home" (some ("Invalid user.", "warning")))
    ∧ Resp.redirect ".home" (some ("Invalid user.", "warning")) ≠ Resp.notFound := by
  exact ⟨rfl, by decide⟩

/-- Claim C8 amended: an unknown username, post id or user id never
crashes a handler: the user and post handlers return a standard not-found
response, while the follow, unfollow, followers and followed-by handlers
flash `Invalid user.` and redirect home. -/
theorem c8_unknown_handled (s : Store) (uname : String) (pid a page perPage ts : Nat)
    (hu : lookupUser s uname = none) (hp : lookupPost s pid = none) :
    userView s uname page perPage = .notFound
    ∧ postView s pid = .notFound
    ∧ followView s a uname ts = .ok (s, .redirect ".home" (some ("Invalid user.", "warning")))
    ∧ unfollowView s a uname = (s, .redirect ".home" (some ("Invalid user.", "warning")))
    ∧ followersView s uname page perPage = .redirect ".home" (some ("Invalid user.", "message"))
    ∧ followedByView s uname page perPage = .redirect ".home" (some ("Invalid user.", "message")) := by
  simp [userView, postView, followView, unfollowView, followersView, followedByView, hu, hp]

/-- Witness for C8 amended: the username `ghost` and post id 42 are
unknown in the scenario store. -/
theorem c8_unknown_handled_witness :
    userView scenarioStore "ghost" 1 20 = .notFound
    ∧ postView scenarioStore 42 = .notFound :=
  ⟨(c8_unknown_handled scenarioStore "ghost" 42 1 1 20 0 (by decide) (by decide)).1,
   (c8_unknown_handled scenarioStore "ghost" 42 1 1 20 0 (by decide) (by decide)).2.1⟩

/-- Claim C10: after a successful login, the redirect target is the
supplied `next` parameter exactly when it is present and begins with `/`;
otherwise it is the application default (`main.index` for the auth login
handler, `main.home` for the index handler), and in all cases the target
begins with `/`. -/
theorem c10_login_redirect_safe (next : Option String) :
    (∀ s, next = some s → startsWithSlash s = true →
        loginRedirectTarget next = s ∧ indexRedirectTarget next = s)
    ∧ (next = none →
        loginRedirectTarget next = urlFor "main.index"
          ∧ indexRedirectTarget next = urlFor "main.home")
    ∧ (∀ s, next = some s → startsWithSlash s = false →
        loginRedirectTarget next = urlFor "main.index"
          ∧ indexRedirectTarget next = urlFor "main.home")
    ∧ startsWithSlash (loginRedirectTarget next) = true
    ∧ startsWithSlash (indexRedirectTarget next) = true := by
  refine ⟨?_, ?_, ?_, ?_, ?_⟩
  · rintro s rfl hs
    simp [loginRedirectTarget, indexRedirectTarget, hs]
  · rintro rfl
    exact ⟨rfl, rfl⟩
  · rintro s rfl hs
    simp [loginRedirectTarget, indexRedirectTarget, hs]
  · cases next with
    | none => decide
    | some s =>
        simp only [loginRedirectTarget]
        split
        · assumption
        · decide
  · cases next with
    | none => decide
    | some s =>
        simp only [indexRedirectTarget]
        split
        · assumption
        · decide

/-- Witness for C10: an internal `next` is honored, an absolute external
URL falls back to the default. -/
theorem c10_login_redirect_safe_witness :
    loginRedirectTarget (some "/home") = "/home"
    ∧ loginRedirectTarget (some "http://evil.example") = urlFor "main.index" :=
  ⟨((c10_login_redirect_safe (some "/home")).1 "/home" rfl (by decide)).1,
   ((c10_login_redirect_safe (some "http://evil.example")).2.2.1
      "http://evil.example" rfl (by decide)).1⟩
